import Mathlib

/-!
Verification of `library/port_checker.py` (ansible-inspector).

The Python module probes TCP ports on a host and compares the observed
opened/closed classification against a desired state.  We embed the module
shallowly: the network is an oracle telling, for each probe call and each
connection attempt, whether the attempt succeeds; side effects (socket
creation, connection attempts, socket closes, sleeps) are recorded in an
explicit event trace.
-/

set_option maxHeartbeats 1000000

namespace PortChecker

/-- Observable side effects of the module, in order of occurrence.
`connect` records one `sock.connect` attempt (its socket, target and
outcome); `sleep` records one `time.sleep(interval)` call. -/
inductive Event where
  | sockCreate (sock : Nat) : Event
  | connect (sock : Nat) (host : String) (port : Int) (success : Bool) : Event
  | sockClose (sock : Nat) : Event
  | sleep (seconds : Int) : Event
deriving DecidableEq, Repr

/-- Number of connection attempts recorded in a trace. -/
def connectCount : List Event → Nat
  | [] => 0
  | Event.connect _ _ _ _ :: tr => connectCount tr + 1
  | _ :: tr => connectCount tr

/-- Number of `time.sleep` calls recorded in a trace. -/
def sleepCount : List Event → Nat
  | [] => 0
  | Event.sleep _ :: tr => sleepCount tr + 1
  | _ :: tr => sleepCount tr

/-- Number of socket creations recorded in a trace. -/
def createCount : List Event → Nat
  | [] => 0
  | Event.sockCreate _ :: tr => createCount tr + 1
  | _ :: tr => createCount tr

/-- Number of socket closes recorded in a trace. -/
def closeCount : List Event → Nat
  | [] => 0
  | Event.sockClose _ :: tr => closeCount tr + 1
  | _ :: tr => closeCount tr

/-- The socket ids used by the connection attempts of a trace, in order. -/
def connectSockIds : List Event → List Nat
  | [] => []
  | Event.connect s _ _ _ :: tr => s :: connectSockIds tr
  | _ :: tr => connectSockIds tr

/-- The (socket, host, port) targets of the connection attempts of a trace. -/
def connectTargets : List Event → List (Nat × String × Int)
  | [] => []
  | Event.connect s h p _ :: tr => (s, h, p) :: connectTargets tr
  | _ :: tr => connectTargets tr

/-- The socket ids of the socket creations of a trace, in order. -/
def createIds : List Event → List Nat
  | [] => []
  | Event.sockCreate s :: tr => s :: createIds tr
  | _ :: tr => createIds tr

/-- One `sock.connect` attempt, as seen through the `try`/`except socket.error`
of the source: the oracle says whether attempt number `i` of this probe call
succeeds; a failure is a `socket.error`, caught locally. -/
def connectResult (oracle : Nat → Bool) (i : Nat) : Except String Unit :=
  if oracle i then Except.ok () else Except.error "socket.error"

/-- The `for retry in range(retries)` loop body of `_check_port_open`,
embedded as structural recursion on the remaining iterations `n`, with `i`
the index of the current attempt.  On a successful `sock.connect` the socket
is closed and the loop returns `True`; on `socket.error` the loop sleeps
`interval` seconds and continues.  When the range is exhausted the code after
the loop closes the socket and returns `False`. -/
def probeAttempts (oracle : Nat → Bool) (sock : Nat) (host : String)
    (port : Int) (interval : Int) : Nat → Nat → Bool × List Event
  | 0, _ => (false, [Event.sockClose sock])
  | n + 1, i =>
    match connectResult oracle i with
    | Except.ok _ =>
        (true, [Event.connect sock host port true, Event.sockClose sock])
    | Except.error _ =>
        let rest := probeAttempts oracle sock host port interval n (i + 1)
        (rest.1, Event.connect sock host port false :: Event.sleep interval :: rest.2)

/-- `_check_port_open(host, port, interval, retries)`: creates one socket,
runs the retry loop, and returns whether the port was reachable together
with the event trace.  `sock` is the identity of the socket created by
`socket.socket(...)`; `retries` is an arbitrary integer, and
`range(retries)` iterates `retries.toNat` times. -/
def _check_port_open (oracle : Nat → Bool) (sock : Nat) (host : String)
    (port : Int) (interval : Int) (retries : Int) : Bool × List Event :=
  let r := probeAttempts oracle sock host port interval retries.toNat 0
  (r.1, Event.sockCreate sock :: r.2)

/-- The `ports_state` dictionary of `_check_port_list`:
`dict(opened=list(), closed=list())`, appended to as each port is probed. -/
structure PortsState where
  opened : List Int
  closed : List Int
deriving DecidableEq, Repr

/-- The initial `ports_state` value: both lists empty. -/
def emptyPortsState : PortsState := ⟨[], []⟩

/-- The loop of `_check_port_list` over the requested ports.
`net i` is the success oracle of the probe call made for the occurrence at
position `i` of the ports list; that call receives the fresh socket `i`.
Reachable ports are appended to `opened`, unreachable ones to `closed`,
in input order; the traces of the successive probe calls are concatenated. -/
def _check_port_list_aux (net : Nat → Nat → Bool) (host : String)
    (interval retries : Int) : List Int → Nat → PortsState → PortsState × List Event
  | [], _, st => (st, [])
  | p :: ps, i, st =>
    let pr := _check_port_open (net i) i host p interval retries
    let st' := if pr.1 then { st with opened := st.opened ++ [p] }
               else { st with closed := st.closed ++ [p] }
    let rest := _check_port_list_aux net host interval retries ps (i + 1) st'
    (rest.1, pr.2 ++ rest.2)

/-- The `module_params` dictionary built in `run_module` from the supplied
arguments.  `state` is `Option String` because the argument spec does not
mark it required: Ansible passes `None` when it is absent. -/
structure ModuleParams where
  host : String
  ports : List Int
  state : Option String
  interval : Int
  retries : Int
deriving DecidableEq, Repr

/-- `_check_port_list(module_params)`: probes every port of the request in
order, from position 0, starting from the empty classification. -/
def _check_port_list (net : Nat → Nat → Bool) (params : ModuleParams) :
    PortsState × List Event :=
  _check_port_list_aux net params.host params.interval params.retries
    params.ports 0 emptyPortsState

/-- One entry of the `module_args` argument spec of `run_module`. -/
structure ArgSpecEntry where
  name : String
  argType : String
  required : Bool
  choices : List String
deriving DecidableEq, Repr

/-- The `module_args` dictionary of `run_module`.  Note two facts of the
source: `ports` is declared with the misspelled key `require=True`, so its
actual `required` flag defaults to `False`; and `state` carries `choices`
but no `required=True`, so it is not required either. -/
def module_args : List ArgSpecEntry :=
  [⟨"host", "str", true, []⟩,
   ⟨"ports", "list", false, []⟩,
   ⟨"state", "str", false, ["opened", "closed"]⟩,
   ⟨"interval", "int", false, []⟩,
   ⟨"retries", "int", false, []⟩]

def MOD_DRYRUN : String := "dryrun"

def MOD_OPENED : String := "opened"

def MOD_CLOSED : String := "closed"

/-- How `run_module` terminates: `module.exit_json(**result)` with the
result fields, or `module.fail_json(msg=...)`.  `checker_status` is `none`
while the result dict still holds the initial empty `dict()`, and
`some st` once `_check_port_list` has filled it. -/
inductive ModuleOutcome where
  | exitJson (changed : Bool) (checker_mode : String)
      (checker_status : Option PortsState) : ModuleOutcome
  | failJson (msg : String) : ModuleOutcome
deriving DecidableEq, Repr

/-- The comma-join of the decimal renderings of the ports, as built by the
join over the stringified port list in the failure messages. -/
def joinPorts (ports : List Int) : String :=
  String.intercalate "," (ports.map toString)

/-- `run_module()` after argument parsing: `params` are the validated module
parameters, `check_mode` is `module.check_mode`, and `net` is the network
oracle handed to `_check_port_list`.  Returns the terminal outcome and the
trace of network side effects. -/
def run_module (net : Nat → Nat → Bool) (params : ModuleParams)
    (check_mode : Bool) : ModuleOutcome × List Event :=
  if check_mode then
    (ModuleOutcome.exitJson false MOD_DRYRUN none, [])
  else
    let cs := _check_port_list net params
    if params.state = some MOD_OPENED then
      if (cs.1.closed).length > 0 then
        (ModuleOutcome.failJson
          ("specified ports are closed: " ++ joinPorts cs.1.closed), cs.2)
      else
        (ModuleOutcome.exitJson false MOD_OPENED (some cs.1), cs.2)
    else if params.state = some MOD_CLOSED then
      if (cs.1.opened).length > 0 then
        (ModuleOutcome.failJson
          ("specified ports are opened: " ++ joinPorts cs.1.opened), cs.2)
      else
        (ModuleOutcome.exitJson false MOD_CLOSED (some cs.1), cs.2)
    else
      (ModuleOutcome.exitJson false "" (some cs.1), cs.2)

/-! ### Trace counting helpers -/

theorem connectCount_append (a b : List Event) :
    connectCount (a ++ b) = connectCount a + connectCount b := by
  induction a with
  | nil => simp [connectCount]
  | cons e tr ih => cases e <;> simp [connectCount, ih] <;> omega

theorem sleepCount_append (a b : List Event) :
    sleepCount (a ++ b) = sleepCount a + sleepCount b := by
  induction a with
  | nil => simp [sleepCount]
  | cons e tr ih => cases e <;> simp [sleepCount, ih] <;> omega

theorem createCount_append (a b : List Event) :
    createCount (a ++ b) = createCount a + createCount b := by
  induction a with
  | nil => simp [createCount]
  | cons e tr ih => cases e <;> simp [createCount, ih] <;> omega

theorem createIds_append (a b : List Event) :
    createIds (a ++ b) = createIds a ++ createIds b := by
  induction a with
  | nil => simp [createIds]
  | cons e tr ih => cases e <;> simp [createIds, ih]

/-! ### Probe loop lemmas -/

theorem probeAttempts_fst (oracle : Nat → Bool) (sock : Nat) (host : String)
    (port : Int) (interval : Int) :
    ∀ n i, (probeAttempts oracle sock host port interval n i).1 = true ↔
      ∃ k, k < n ∧ oracle (i + k) = true := by
  intro n
  induction n with
  | zero => intro i; simp [probeAttempts]
  | succ m ih =>
    intro i
    by_cases h : oracle i = true
    · simp only [probeAttempts, connectResult, h, if_true]
      constructor
      · intro _; exact ⟨0, Nat.succ_pos m, by simpa using h⟩
      · intro _; trivial
    · have h' : oracle i = false := by
        cases hx : oracle i
        · rfl
        · exact absurd hx h
      simp only [probeAttempts, connectResult, h', Bool.false_eq_true, if_false]
      rw [ih (i + 1)]
      constructor
      · rintro ⟨k, hk, hko⟩
        refine ⟨k + 1, by omega, ?_⟩
        have e : i + (k + 1) = i + 1 + k := by omega
        rw [e]; exact hko
      · rintro ⟨k, hk, hko⟩
        cases k with
        | zero =>
          rw [Nat.add_zero] at hko
          exact absurd hko (by simp [h'])
        | succ k' =>
          refine ⟨k', by omega, ?_⟩
          have e : i + 1 + k' = i + (k' + 1) := by omega
          rw [e]; exact hko

theorem probeAttempts_closeCount (oracle : Nat → Bool) (sock : Nat)
    (host : String) (port : Int) (interval : Int) :
    ∀ n i, closeCount (probeAttempts oracle sock host port interval n i).2 = 1 := by
  intro n
  induction n with
  | zero => intro i; simp [probeAttempts, closeCount]
  | succ m ih =>
    intro i
    by_cases h : oracle i = true
    · simp [probeAttempts, connectResult, h, closeCount]
    · have h' : oracle i = false := by
        cases hx : oracle i
        · rfl
        · exact absurd hx h
      simp [probeAttempts, connectResult, h', closeCount, ih]

theorem probeAttempts_createCount (oracle : Nat → Bool) (sock : Nat)
    (host : String) (port : Int) (interval : Int) :
    ∀ n i, createCount (probeAttempts oracle sock host port interval n i).2 = 0 := by
  intro n
  induction n with
  | zero => intro i; simp [probeAttempts, createCount]
  | succ m ih =>
    intro i
    by_cases h : oracle i = true
    · simp [probeAttempts, connectResult, h, createCount]
    · have h' : oracle i = false := by
        cases hx : oracle i
        · rfl
        · exact absurd hx h
      simp [probeAttempts, connectResult, h', createCount, ih]

theorem probeAttempts_createIds (oracle : Nat → Bool) (sock : Nat)
    (host : String) (port : Int) (interval : Int) :
    ∀ n i, createIds (probeAttempts oracle sock host port interval n i).2 = [] := by
  intro n
  induction n with
  | zero => intro i; simp [probeAttempts, createIds]
  | succ m ih =>
    intro i
    by_cases h : oracle i = true
    · simp [probeAttempts, connectResult, h, createIds]
    · have h' : oracle i = false := by
        cases hx : oracle i
        · rfl
        · exact absurd hx h
      simp [probeAttempts, connectResult, h', createIds, ih]

theorem probeAttempts_targets (oracle : Nat → Bool) (sock : Nat)
    (host : String) (port : Int) (interval : Int) :
    ∀ n i, ∀ x ∈ connectTargets (probeAttempts oracle sock host port interval n i).2,
      x = (sock, host, port) := by
  intro n
  induction n with
  | zero => intro i; simp [probeAttempts, connectTargets]
  | succ m ih =>
    intro i
    by_cases h : oracle i = true
    · simp [probeAttempts, connectResult, h, connectTargets]
    · have h' : oracle i = false := by
        cases hx : oracle i
        · rfl
        · exact absurd hx h
      simp only [probeAttempts, connectResult, h', Bool.false_eq_true, if_false,
        connectTargets]
      intro x hx
      rcases List.mem_cons.mp hx with h1 | h1
      · exact h1
      · exact ih (i + 1) x h1

theorem probeAttempts_sockIds (oracle : Nat → Bool) (sock : Nat)
    (host : String) (port : Int) (interval : Int) :
    ∀ n i, ∀ x ∈ connectSockIds (probeAttempts oracle sock host port interval n i).2,
      x = sock := by
  intro n
  induction n with
  | zero => intro i; simp [probeAttempts, connectSockIds]
  | succ m ih =>
    intro i
    by_cases h : oracle i = true
    · simp [probeAttempts, connectResult, h, connectSockIds]
    · have h' : oracle i = false := by
        cases hx : oracle i
        · rfl
        · exact absurd hx h
      simp only [probeAttempts, connectResult, h', Bool.false_eq_true, if_false,
        connectSockIds]
      intro x hx
      rcases List.mem_cons.mp hx with h1 | h1
      · exact h1
      · exact ih (i + 1) x h1

theorem probeAttempts_connectCount_le (oracle : Nat → Bool) (sock : Nat)
    (host : String) (port : Int) (interval : Int) :
    ∀ n i, connectCount (probeAttempts oracle sock host port interval n i).2 ≤ n := by
  intro n
  induction n with
  | zero => intro i; simp [probeAttempts, connectCount]
  | succ m ih =>
    intro i
    by_cases h : oracle i = true
    · simp [probeAttempts, connectResult, h, connectCount]
    · have h' : oracle i = false := by
        cases hx : oracle i
        · rfl
        · exact absurd hx h
      simp only [probeAttempts, connectResult, h', Bool.false_eq_true, if_false,
        connectCount, sleepCount]
      have := ih (i + 1)
      omega

theorem probeAttempts_connectCount_pos (oracle : Nat → Bool) (sock : Nat)
    (host : String) (port : Int) (interval : Int) :
    ∀ n i, 0 < n →
      0 < connectCount (probeAttempts oracle sock host port interval n i).2 := by
  intro n
  cases n with
  | zero => intro i hi; omega
  | succ m =>
    intro i _
    by_cases h : oracle i = true
    · simp [probeAttempts, connectResult, h, connectCount]
    · have h' : oracle i = false := by
        cases hx : oracle i
        · rfl
        · exact absurd hx h
      simp [probeAttempts, connectResult, h', connectCount, sleepCount]

theorem probeAttempts_all_fail (oracle : Nat → Bool) (sock : Nat)
    (host : String) (port : Int) (interval : Int) :
    ∀ n i, (∀ k, k < n → oracle (i + k) = false) →
      connectCount (probeAttempts oracle sock host port interval n i).2 = n ∧
      sleepCount (probeAttempts oracle sock host port interval n i).2 = n := by
  intro n
  induction n with
  | zero => intro i _; simp [probeAttempts, connectCount, sleepCount]
  | succ m ih =>
    intro i hall
    have h' : oracle i = false := by
      have := hall 0 (Nat.succ_pos m)
      simpa using this
    have hrest : ∀ k, k < m → oracle (i + 1 + k) = false := by
      intro k hk
      have e : i + 1 + k = i + (k + 1) := by omega
      rw [e]; exact hall (k + 1) (by omega)
    have := ih (i + 1) hrest
    simp only [probeAttempts, connectResult, h', Bool.false_eq_true, if_false,
      connectCount, sleepCount]
    omega

theorem probeAttempts_first_success (oracle : Nat → Bool) (sock : Nat)
    (host : String) (port : Int) (interval : Int) :
    ∀ n i j, j < n → oracle (i + j) = true → (∀ k, k < j → oracle (i + k) = false) →
      connectCount (probeAttempts oracle sock host port interval n i).2 = j + 1 ∧
      sleepCount (probeAttempts oracle sock host port interval n i).2 = j := by
  intro n
  induction n with
  | zero => intro i j hj; omega
  | succ m ih =>
    intro i j hj hsucc hbefore
    by_cases h : oracle i = true
    · have hj0 : j = 0 := by
        by_contra hne
        have := hbefore 0 (by omega)
        rw [Nat.add_zero] at this
        rw [this] at h
        exact Bool.false_ne_true h
      subst hj0
      simp [probeAttempts, connectResult, h, connectCount, sleepCount]
    · have h' : oracle i = false := by
        cases hx : oracle i
        · rfl
        · exact absurd hx h
      have hjne : j ≠ 0 := by
        intro hj0
        subst hj0
        rw [Nat.add_zero] at hsucc
        rw [hsucc] at h'
        exact Bool.noConfusion h'
      obtain ⟨j', rfl⟩ : ∃ j', j = j' + 1 := ⟨j - 1, by omega⟩
      have hsucc' : oracle (i + 1 + j') = true := by
        have e : i + 1 + j' = i + (j' + 1) := by omega
        rw [e]; exact hsucc
      have hbefore' : ∀ k, k < j' → oracle (i + 1 + k) = false := by
        intro k hk
        have e : i + 1 + k = i + (k + 1) := by omega
        rw [e]; exact hbefore (k + 1) (by omega)
      have := ih (i + 1) j' (by omega) hsucc' hbefore'
      simp only [probeAttempts, connectResult, h', Bool.false_eq_true, if_false,
        connectCount, sleepCount]
      omega

/-! ### Scanner lemmas -/

/-- The ports list paired with the occurrence indices the scanner assigns,
starting at `i`. -/
def enumPorts : List Int → Nat → List (Nat × Int)
  | [], _ => []
  | p :: ps, i => (i, p) :: enumPorts ps (i + 1)

/-- The classification the scanner computes for one occurrence: position
`x.1` of the ports list, carrying port `x.2`. -/
def occOpen (net : Nat → Nat → Bool) (host : String) (interval retries : Int)
    (x : Nat × Int) : Bool :=
  (_check_port_open (net x.1) x.1 host x.2 interval retries).1

theorem enumPorts_map_snd : ∀ (ps : List Int) (i : Nat),
    (enumPorts ps i).map Prod.snd = ps := by
  intro ps
  induction ps with
  | nil => intro i; simp [enumPorts]
  | cons p ps ih => intro i; simp [enumPorts, ih]

theorem enumPorts_length : ∀ (ps : List Int) (i : Nat),
    (enumPorts ps i).length = ps.length := by
  intro ps
  induction ps with
  | nil => intro i; simp [enumPorts]
  | cons p ps ih => intro i; simp [enumPorts, ih]

theorem check_port_list_aux_opened (net : Nat → Nat → Bool) (host : String)
    (interval retries : Int) :
    ∀ (ps : List Int) (i : Nat) (st : PortsState),
      (_check_port_list_aux net host interval retries ps i st).1.opened =
        st.opened ++
          ((enumPorts ps i).filter (occOpen net host interval retries)).map Prod.snd := by
  intro ps
  induction ps with
  | nil => intro i st; simp [_check_port_list_aux, enumPorts]
  | cons p ps ih =>
    intro i st
    by_cases h : (_check_port_open (net i) i host p interval retries).1 = true
    · simp only [_check_port_list_aux, h, if_true, ih, enumPorts, List.filter_cons,
        occOpen, h, List.map_cons]
      simp [occOpen, h]
    · have h' : (_check_port_open (net i) i host p interval retries).1 = false := by
        cases hx : (_check_port_open (net i) i host p interval retries).1
        · rfl
        · exact absurd hx h
      simp only [_check_port_list_aux, h', Bool.false_eq_true, if_false, ih, enumPorts,
        List.filter_cons]
      simp [occOpen, h']

theorem check_port_list_aux_closed (net : Nat → Nat → Bool) (host : String)
    (interval retries : Int) :
    ∀ (ps : List Int) (i : Nat) (st : PortsState),
      (_check_port_list_aux net host interval retries ps i st).1.closed =
        st.closed ++
          ((enumPorts ps i).filter
            (fun x => ! occOpen net host interval retries x)).map Prod.snd := by
  intro ps
  induction ps with
  | nil => intro i st; simp [_check_port_list_aux, enumPorts]
  | cons p ps ih =>
    intro i st
    by_cases h : (_check_port_open (net i) i host p interval retries).1 = true
    · simp only [_check_port_list_aux, h, if_true, ih, enumPorts, List.filter_cons]
      simp [occOpen, h]
    · have h' : (_check_port_open (net i) i host p interval retries).1 = false := by
        cases hx : (_check_port_open (net i) i host p interval retries).1
        · rfl
        · exact absurd hx h
      simp only [_check_port_list_aux, h', Bool.false_eq_true, if_false, ih, enumPorts,
        List.filter_cons]
      simp [occOpen, h']

theorem check_port_open_createCount (oracle : Nat → Bool) (sock : Nat)
    (host : String) (port : Int) (interval retries : Int) :
    createCount (_check_port_open oracle sock host port interval retries).2 = 1 := by
  simp [_check_port_open, createCount, probeAttempts_createCount]

theorem check_port_open_createIds (oracle : Nat → Bool) (sock : Nat)
    (host : String) (port : Int) (interval retries : Int) :
    createIds (_check_port_open oracle sock host port interval retries).2 = [sock] := by
  simp [_check_port_open, createIds, probeAttempts_createIds]

theorem check_port_list_aux_createIds (net : Nat → Nat → Bool) (host : String)
    (interval retries : Int) :
    ∀ (ps : List Int) (i : Nat) (st : PortsState),
      createIds (_check_port_list_aux net host interval retries ps i st).2 =
        List.range' i ps.length := by
  intro ps
  induction ps with
  | nil => intro i st; simp [_check_port_list_aux, createIds, List.range']
  | cons p ps ih =>
    intro i st
    simp only [_check_port_list_aux]
    by_cases h : (_check_port_open (net i) i host p interval retries).1 = true
    · simp only [h, if_true, createIds_append, check_port_open_createIds, ih,
        List.length_cons, List.range'_succ]
      rfl
    · have h' : (_check_port_open (net i) i host p interval retries).1 = false := by
        cases hx : (_check_port_open (net i) i host p interval retries).1
        · rfl
        · exact absurd hx h
      simp only [h', Bool.false_eq_true, if_false, createIds_append,
        check_port_open_createIds, ih, List.length_cons, List.range'_succ]
      rfl

theorem check_port_list_aux_createCount (net : Nat → Nat → Bool) (host : String)
    (interval retries : Int) :
    ∀ (ps : List Int) (i : Nat) (st : PortsState),
      createCount (_check_port_list_aux net host interval retries ps i st).2 =
        ps.length := by
  intro ps
  induction ps with
  | nil => intro i st; simp [_check_port_list_aux, createCount]
  | cons p ps ih =>
    intro i st
    simp only [_check_port_list_aux]
    by_cases h : (_check_port_open (net i) i host p interval retries).1 = true
    · simp [h, createCount_append, check_port_open_createCount, ih]
      omega
    · have h' : (_check_port_open (net i) i host p interval retries).1 = false := by
        cases hx : (_check_port_open (net i) i host p interval retries).1
        · rfl
        · exact absurd hx h
      simp [h', createCount_append, check_port_open_createCount, ih]
      omega

/-! ### Claim theorems: the probe -/

/-- Claim C4: for every probe call, the probe returns true exactly when some
of the allowed attempts succeeds (failures are represented solely by the
false return, never raised); when attempt `j` is the first success, exactly
`j + 1` connection attempts are made (none after the first success) and the
probe slept only between them; when every attempt fails, the probe returns
false after exactly `retries` attempts; the socket is closed exactly once on
every path. -/
theorem probe_first_success_contract (oracle : Nat → Bool) (sock : Nat)
    (host : String) (port : Int) (interval retries : Int) :
    ((_check_port_open oracle sock host port interval retries).1 = true ↔
      ∃ k, k < retries.toNat ∧ oracle k = true)
    ∧ (∀ j, j < retries.toNat → oracle j = true →
        (∀ k, k < j → oracle k = false) →
        connectCount (_check_port_open oracle sock host port interval retries).2 = j + 1 ∧
        sleepCount (_check_port_open oracle sock host port interval retries).2 = j)
    ∧ ((∀ k, k < retries.toNat → oracle k = false) →
        (_check_port_open oracle sock host port interval retries).1 = false ∧
        connectCount (_check_port_open oracle sock host port interval retries).2 =
          retries.toNat)
    ∧ closeCount (_check_port_open oracle sock host port interval retries).2 = 1 := by
  refine ⟨?_, ?_, ?_, ?_⟩
  · have h := probeAttempts_fst oracle sock host port interval retries.toNat 0
    simp only [Nat.zero_add] at h
    simpa [_check_port_open] using h
  · intro j hj hs hb
    have h := probeAttempts_first_success oracle sock host port interval
      retries.toNat 0 j hj (by simpa using hs) (by intro k hk; simpa using hb k hk)
    exact ⟨by simpa [_check_port_open, connectCount] using h.1,
      by simpa [_check_port_open, sleepCount] using h.2⟩
  · intro hall
    have h1 := probeAttempts_all_fail oracle sock host port interval
      retries.toNat 0 (by intro k hk; simpa using hall k hk)
    have h2 : (probeAttempts oracle sock host port interval retries.toNat 0).1 = false := by
      cases hx : (probeAttempts oracle sock host port interval retries.toNat 0).1
      · rfl
      · obtain ⟨k, hk, hko⟩ :=
          (probeAttempts_fst oracle sock host port interval retries.toNat 0).mp hx
        rw [Nat.zero_add] at hko
        rw [hall k hk] at hko
        exact Bool.noConfusion hko
    exact ⟨by simpa [_check_port_open] using h2,
      by simpa [_check_port_open, connectCount] using h1.1⟩
  · simpa [_check_port_open, closeCount] using
      probeAttempts_closeCount oracle sock host port interval retries.toNat 0

/-- Witness for C4 at a concrete input: the oracle succeeds only at attempt
index 1, with `retries = 3`; the probe returns true and makes exactly two
connection attempts (none after the success), sleeping once. -/
theorem probe_first_success_contract_witness :
    (_check_port_open (fun i => decide (i = 1)) 0 "localhost" 80 1 3).1 = true ∧
    connectCount (_check_port_open (fun i => decide (i = 1)) 0 "localhost" 80 1 3).2 = 2 ∧
    sleepCount (_check_port_open (fun i => decide (i = 1)) 0 "localhost" 80 1 3).2 = 1 := by
  have h := probe_first_success_contract (fun i => decide (i = 1)) 0 "localhost" 80 1 3
  refine ⟨h.1.mpr ⟨1, by decide, by decide⟩, ?_, ?_⟩
  · exact (h.2.1 1 (by decide) (by decide) (by decide)).1
  · exact (h.2.1 1 (by decide) (by decide) (by decide)).2

/-- Counterexample to claim C5: with `retries = 2` and an oracle that always
fails, the source sleeps after every failed attempt including the last, so
the probe performs 2 interval waits, not `retries - 1 = 1`. -/
theorem sleep_retries_minus_one_cx :
    sleepCount (_check_port_open (fun _ => false) 0 "localhost" 80 5 2).2 ≠ 2 - 1 := by
  decide

/-- Claim C5 amended: when all attempts fail, the probe performs exactly
`retries` interval waits — it sleeps after every failed attempt, including
the final one (the `time.sleep` lives in the `except` block, unconditionally). -/
theorem sleep_after_every_failed_attempt (oracle : Nat → Bool) (sock : Nat)
    (host : String) (port : Int) (interval retries : Int)
    (h : ∀ k, k < retries.toNat → oracle k = false) :
    sleepCount (_check_port_open oracle sock host port interval retries).2 =
      retries.toNat := by
  have h1 := probeAttempts_all_fail oracle sock host port interval
    retries.toNat 0 (by intro k hk; simpa using h k hk)
  simpa [_check_port_open, sleepCount] using h1.2

/-- Witness for the amended C5: always-failing oracle with `retries = 3`
gives exactly 3 sleeps. -/
theorem sleep_after_every_failed_attempt_witness :
    (∀ k, k < (3 : Int).toNat → (fun (_ : Nat) => false) k = false) ∧
    sleepCount (_check_port_open (fun _ => false) 0 "localhost" 80 1 3).2 =
      (3 : Int).toNat :=
  ⟨by decide, sleep_after_every_failed_attempt (fun _ => false) 0 "localhost" 80 1 3
    (by decide)⟩

/-- Claim C6: with `retries ≥ 1`, the probe makes at least one and at most
`retries` connection attempts, and every attempt targets the single
(host, port) pair through the socket of the probe. -/
theorem probe_attempt_bounds (oracle : Nat → Bool) (sock : Nat) (host : String)
    (port : Int) (interval : Int) (retries : Int) (h : 1 ≤ retries) :
    1 ≤ connectCount (_check_port_open oracle sock host port interval retries).2 ∧
    connectCount (_check_port_open oracle sock host port interval retries).2 ≤
      retries.toNat ∧
    ∀ x ∈ connectTargets (_check_port_open oracle sock host port interval retries).2,
      x = (sock, host, port) := by
  have hpos : 0 < retries.toNat := by omega
  refine ⟨?_, ?_, ?_⟩
  · have := probeAttempts_connectCount_pos oracle sock host port interval
      retries.toNat 0 hpos
    simpa [_check_port_open, connectCount] using this
  · have := probeAttempts_connectCount_le oracle sock host port interval retries.toNat 0
    simpa [_check_port_open, connectCount] using this
  · have := probeAttempts_targets oracle sock host port interval retries.toNat 0
    simpa [_check_port_open, connectTargets] using this

/-- Witness for C6 at `retries = 2` with an always-failing oracle. -/
theorem probe_attempt_bounds_witness :
    (1 : Int) ≤ 2 ∧
    (1 ≤ connectCount (_check_port_open (fun _ => false) 0 "localhost" 80 1 2).2 ∧
     connectCount (_check_port_open (fun _ => false) 0 "localhost" 80 1 2).2 ≤
       (2 : Int).toNat ∧
     ∀ x ∈ connectTargets (_check_port_open (fun _ => false) 0 "localhost" 80 1 2).2,
       x = (0, "localhost", 80)) :=
  ⟨by decide, probe_attempt_bounds (fun _ => false) 0 "localhost" 80 1 2 (by decide)⟩

/-- Counterexample to claim C8: both connection attempts of a probe call
with `retries = 2` use the same socket — the socket ids of the attempts are
not pairwise distinct, because `socket.socket(...)` is called once, before
the retry loop. -/
theorem socket_per_attempt_cx :
    ¬ (connectSockIds (_check_port_open (fun _ => false) 5 "localhost" 80 1 2).2).Nodup := by
  decide

/-- Claim C8 amended: each probe call creates exactly one socket, which every
connection attempt of that call reuses, and closes it exactly once; sockets
are still never shared across ports, because each port occurrence gets its
own probe call and the socket creations of the scanner are pairwise distinct (one
fresh socket per occurrence). -/
theorem single_socket_per_call (oracle : Nat → Bool) (sock : Nat) (host : String)
    (port : Int) (interval retries : Int) (net : Nat → Nat → Bool)
    (params : ModuleParams) :
    (∀ x ∈ connectSockIds (_check_port_open oracle sock host port interval retries).2,
      x = sock)
    ∧ createCount (_check_port_open oracle sock host port interval retries).2 = 1
    ∧ closeCount (_check_port_open oracle sock host port interval retries).2 = 1
    ∧ createIds (_check_port_list net params).2 = List.range' 0 params.ports.length
    ∧ (createIds (_check_port_list net params).2).Nodup := by
  refine ⟨?_, ?_, ?_, ?_, ?_⟩
  · have := probeAttempts_sockIds oracle sock host port interval retries.toNat 0
    simpa [_check_port_open, connectSockIds] using this
  · exact check_port_open_createCount oracle sock host port interval retries
  · simpa [_check_port_open, closeCount] using
      probeAttempts_closeCount oracle sock host port interval retries.toNat 0
  · exact check_port_list_aux_createIds net params.host params.interval params.retries
      params.ports 0 emptyPortsState
  · have h : createIds (_check_port_list net params).2 =
        List.range' 0 params.ports.length :=
      check_port_list_aux_createIds net params.host params.interval params.retries
        params.ports 0 emptyPortsState
    rw [h]
    exact List.nodup_range' 0 params.ports.length

/-- Witness for the amended C8 at a concrete probe call and a concrete
two-port scan. -/
theorem single_socket_per_call_witness :
    (∀ x ∈ connectSockIds (_check_port_open (fun _ => false) 5 "localhost" 80 1 2).2,
      x = 5)
    ∧ createCount (_check_port_open (fun _ => false) 5 "localhost" 80 1 2).2 = 1
    ∧ closeCount (_check_port_open (fun _ => false) 5 "localhost" 80 1 2).2 = 1
    ∧ createIds (_check_port_list (fun _ _ => false)
        (ModuleParams.mk "localhost" [22, 443] none 1 1)).2 =
      List.range' 0 (ModuleParams.mk "localhost" [22, 443] none 1 1).ports.length
    ∧ (createIds (_check_port_list (fun _ _ => false)
        (ModuleParams.mk "localhost" [22, 443] none 1 1)).2).Nodup :=
  single_socket_per_call (fun _ => false) 5 "localhost" 80 1 2 (fun _ _ => false)
    (ModuleParams.mk "localhost" [22, 443] none 1 1)

/-- Claim C9: with `retries ≤ 0`, `range(retries)` is empty, so the probe
makes no connection attempt, never sleeps, and returns false. -/
theorem probe_nonpos_retries (oracle : Nat → Bool) (sock : Nat) (host : String)
    (port : Int) (interval : Int) (retries : Int) (h : retries ≤ 0) :
    (_check_port_open oracle sock host port interval retries).1 = false ∧
    connectCount (_check_port_open oracle sock host port interval retries).2 = 0 ∧
    sleepCount (_check_port_open oracle sock host port interval retries).2 = 0 := by
  have htn : retries.toNat = 0 := by omega
  refine ⟨?_, ?_, ?_⟩ <;>
    simp [_check_port_open, htn, probeAttempts, connectCount, sleepCount]

/-- Witness for C9 at `retries = -1` with an oracle that would always
succeed: still no attempt is made and the result is false. -/
theorem probe_nonpos_retries_witness :
    (-1 : Int) ≤ 0 ∧
    ((_check_port_open (fun _ => true) 0 "localhost" 80 1 (-1)).1 = false ∧
     connectCount (_check_port_open (fun _ => true) 0 "localhost" 80 1 (-1)).2 = 0 ∧
     sleepCount (_check_port_open (fun _ => true) 0 "localhost" 80 1 (-1)).2 = 0) :=
  ⟨by decide, probe_nonpos_retries (fun _ => true) 0 "localhost" 80 1 (-1) (by decide)⟩

/-! ### Claim theorems: the scanner -/

theorem check_port_list_opened (net : Nat → Nat → Bool) (params : ModuleParams) :
    (_check_port_list net params).1.opened =
      ((enumPorts params.ports 0).filter
        (occOpen net params.host params.interval params.retries)).map Prod.snd := by
  have h := check_port_list_aux_opened net params.host params.interval params.retries
    params.ports 0 emptyPortsState
  simpa [emptyPortsState, _check_port_list] using h

theorem check_port_list_closed (net : Nat → Nat → Bool) (params : ModuleParams) :
    (_check_port_list net params).1.closed =
      ((enumPorts params.ports 0).filter
        (fun x => ! occOpen net params.host params.interval params.retries x)).map
        Prod.snd := by
  have h := check_port_list_aux_closed net params.host params.interval params.retries
    params.ports 0 emptyPortsState
  simpa [emptyPortsState, _check_port_list] using h

theorem check_port_list_createCount (net : Nat → Nat → Bool) (params : ModuleParams) :
    createCount (_check_port_list net params).2 = params.ports.length :=
  check_port_list_aux_createCount net params.host params.interval params.retries
    params.ports 0 emptyPortsState

/-- Claim C3: the opened and closed classifications together are exactly the
input ports sequence as a multiset; every occurrence is classified once
(one probe call, hence one socket creation, per occurrence); and each of the
two output lists preserves the input order (it is a subsequence of the
input). -/
theorem classification_partition_ordered (net : Nat → Nat → Bool)
    (params : ModuleParams) :
    ((_check_port_list net params).1.opened ++
      (_check_port_list net params).1.closed).Perm params.ports
    ∧ (_check_port_list net params).1.opened.Sublist params.ports
    ∧ (_check_port_list net params).1.closed.Sublist params.ports
    ∧ (_check_port_list net params).1.opened.length +
        (_check_port_list net params).1.closed.length = params.ports.length
    ∧ createCount (_check_port_list net params).2 = params.ports.length := by
  have hop := check_port_list_opened net params
  have hcl := check_port_list_closed net params
  have hperm : ((_check_port_list net params).1.opened ++
      (_check_port_list net params).1.closed).Perm params.ports := by
    rw [hop, hcl, ← List.map_append]
    have h1 := List.filter_append_perm
      (occOpen net params.host params.interval params.retries) (enumPorts params.ports 0)
    have h2 := h1.map Prod.snd
    rw [enumPorts_map_snd] at h2
    exact h2
  refine ⟨hperm, ?_, ?_, ?_, check_port_list_createCount net params⟩
  · rw [hop]
    have hs : ((enumPorts params.ports 0).filter
        (occOpen net params.host params.interval params.retries)).Sublist
        (enumPorts params.ports 0) := List.filter_sublist _
    have := hs.map Prod.snd
    rwa [enumPorts_map_snd] at this
  · rw [hcl]
    have hs : ((enumPorts params.ports 0).filter
        (fun x => ! occOpen net params.host params.interval params.retries x)).Sublist
        (enumPorts params.ports 0) := List.filter_sublist _
    have := hs.map Prod.snd
    rwa [enumPorts_map_snd] at this
  · have := hperm.length_eq
    simpa [List.length_append] using this

/-! ### Claim theorems: run_module -/

/-- Claim C1: with `state = opened` (and not in check mode), the run succeeds
exactly when the classified-closed list is empty; otherwise it fails with
the fixed prefix followed by the comma-joined closed ports. -/
theorem run_module_opened_verdict (net : Nat → Nat → Bool) (params : ModuleParams)
    (h : params.state = some MOD_OPENED) :
    (run_module net params false).1 =
      (if (_check_port_list net params).1.closed = [] then
        ModuleOutcome.exitJson false MOD_OPENED (some (_check_port_list net params).1)
      else
        ModuleOutcome.failJson
          ("specified ports are closed: " ++
            joinPorts (_check_port_list net params).1.closed)) := by
  by_cases hc : (_check_port_list net params).1.closed = []
  · have hlen : ¬ ((_check_port_list net params).1.closed).length > 0 := by
      rw [hc]; simp
    simp [run_module, h, hlen, hc]
  · have hlen : ((_check_port_list net params).1.closed).length > 0 :=
      List.length_pos.mpr hc
    simp [run_module, h, hlen, hc]

/-- Witness for C1: two ports, the network refuses both, so both classify as
closed and the run fails listing them comma-joined after the fixed prefix. -/
theorem run_module_opened_verdict_witness :
    (run_module (fun _ _ => false)
      (ModuleParams.mk "localhost" [22, 443] (some MOD_OPENED) 0 1) false).1 =
      ModuleOutcome.failJson "specified ports are closed: 22,443" := by
  rw [run_module_opened_verdict (fun _ _ => false)
    (ModuleParams.mk "localhost" [22, 443] (some MOD_OPENED) 0 1) rfl]
  rfl

/-- Claim C2: with `state = closed` (and not in check mode), the run succeeds
exactly when the classified-opened list is empty; otherwise it fails with
the fixed prefix followed by the comma-joined opened ports. -/
theorem run_module_closed_verdict (net : Nat → Nat → Bool) (params : ModuleParams)
    (h : params.state = some MOD_CLOSED) :
    (run_module net params false).1 =
      (if (_check_port_list net params).1.opened = [] then
        ModuleOutcome.exitJson false MOD_CLOSED (some (_check_port_list net params).1)
      else
        ModuleOutcome.failJson
          ("specified ports are opened: " ++
            joinPorts (_check_port_list net params).1.opened)) := by
  have hne : ¬ params.state = some MOD_OPENED := by
    rw [h]
    intro hcontra
    have heq := Option.some.inj hcontra
    exact absurd heq (by decide)
  have hm : MOD_CLOSED ≠ MOD_OPENED := by decide
  by_cases hc : (_check_port_list net params).1.opened = []
  · have hlen : ¬ ((_check_port_list net params).1.opened).length > 0 := by
      rw [hc]; simp
    simp [run_module, h, hne, hm, hlen, hc]
  · have hlen : ((_check_port_list net params).1.opened).length > 0 :=
      List.length_pos.mpr hc
    simp [run_module, h, hne, hm, hlen, hc]

/-- Witness for C2: one port which the network accepts, so it classifies as
opened and the run fails naming it. -/
theorem run_module_closed_verdict_witness :
    (run_module (fun _ _ => true)
      (ModuleParams.mk "localhost" [8080] (some MOD_CLOSED) 0 1) false).1 =
      ModuleOutcome.failJson "specified ports are opened: 8080" := by
  rw [run_module_closed_verdict (fun _ _ => true)
    (ModuleParams.mk "localhost" [8080] (some MOD_CLOSED) 0 1) rfl]
  rfl

/-- Claim C7: in check mode the module performs no probing at all — the side
effect trace is empty, so there are no connection attempts and no sleeps —
and exits immediately with `checker_mode = dryrun`, the still-empty checker
status, and `changed = false`. -/
theorem run_module_check_mode_dryrun (net : Nat → Nat → Bool)
    (params : ModuleParams) :
    run_module net params true = (ModuleOutcome.exitJson false MOD_DRYRUN none, []) ∧
    connectCount (run_module net params true).2 = 0 ∧
    sleepCount (run_module net params true).2 = 0 :=
  ⟨rfl, rfl, rfl⟩

/-- Claim C10: the argument spec leaves `state` unrequired, and when it is
absent (`None`) neither string comparison matches, so after probing every
port the module exits successfully with `checker_mode` still the empty
string, whatever the classification. -/
theorem run_module_state_absent (net : Nat → Nat → Bool) (params : ModuleParams)
    (h : params.state = none) :
    (run_module net params false).1 =
      ModuleOutcome.exitJson false "" (some (_check_port_list net params).1) ∧
    createCount (run_module net params false).2 = params.ports.length ∧
    (module_args.find? (fun e => e.name == "state")).map ArgSpecEntry.required =
      some false := by
  have hne1 : ¬ params.state = some MOD_OPENED := by rw [h]; simp
  have hne2 : ¬ params.state = some MOD_CLOSED := by rw [h]; simp
  refine ⟨?_, ?_, by decide⟩
  · simp [run_module, hne1, hne2]
  · have htr : (run_module net params false).2 = (_check_port_list net params).2 := by
      simp [run_module, hne1, hne2]
    rw [htr]
    exact check_port_list_createCount net params

/-- Witness for C10: one reachable port, no `state` given — the module exits
successfully with empty mode even though the port is open. -/
theorem run_module_state_absent_witness :
    (run_module (fun _ _ => true) (ModuleParams.mk "localhost" [80] none 0 1) false).1 =
      ModuleOutcome.exitJson false ""
        (some (_check_port_list (fun _ _ => true)
          (ModuleParams.mk "localhost" [80] none 0 1)).1) ∧
    createCount (run_module (fun _ _ => true)
      (ModuleParams.mk "localhost" [80] none 0 1) false).2 =
      (ModuleParams.mk "localhost" [80] none 0 1).ports.length ∧
    (module_args.find? (fun e => e.name == "state")).map ArgSpecEntry.required =
      some false :=
  run_module_state_absent (fun _ _ => true)
    (ModuleParams.mk "localhost" [80] none 0 1) rfl

end PortChecker
